import Mathlib

/-!
Shallow embedding of the Faxbot API core (src/api/app/main.py and friends),
together with theorems settling the frozen claims about its specification.

Times are modelled as integer seconds (Unix-style).  Database tables are
modelled as association lists; the filesystem as a list of path strings.
External library calls (HMAC, UTF-8 decoding) are passed in as function
parameters, since the code treats them as black boxes.
-/

namespace Faxbot

/-! ## Destination validation (PHONE_RE, main.py line 45)

`PHONE_RE = re.compile(r"^[+]?\d{6,20}$")`, used as `PHONE_RE.match(to)`.
Python `$` also matches just before a single trailing newline, so the
faithful model accepts an optional final newline character. -/

/-- Core of `PHONE_RE`: optional leading plus sign, then 6 to 20 digits. -/
def phoneCore (cs : List Char) : Bool :=
  let ds := match cs with
    | '+' :: rest => rest
    | rest => rest
  ds.all Char.isDigit && decide (6 ≤ ds.length) && decide (ds.length ≤ 20)

/-- `PHONE_RE.match(to)` from main.py line 45, including the Python `re`
semantics that `$` also matches immediately before one trailing newline. -/
def PHONE_RE_match (s : String) : Bool :=
  let cs := s.toList
  phoneCore cs ||
    (match cs.getLast? with
      | some c => c = '\n' && phoneCore cs.dropLast
      | none => false)

/-- The validation rule as worded by the spec (section 4.2): digits only,
optional leading plus sign, total length 6 to 20 digits.  Stated from the
spec text, for comparison with the `PHONE_RE` model taken from the source. -/
def specPhoneRule (s : String) : Bool :=
  phoneCore s.toList

/-! ## Data model (db.py `FaxJob`, models.py `FaxJobOut`) -/

/-- Row of the `fax_jobs` table (db.py lines 19-34).  Datetimes are integer
seconds. -/
structure FaxJob where
  id : String
  to_number : String
  file_name : String
  tiff_path : String
  status : String
  error : Option String := none
  pages : Option Nat := none
  backend : String
  provider_sid : Option String := none
  pdf_url : Option String := none
  pdf_token : Option String := none
  pdf_token_expires_at : Option Int := none
  created_at : Int
  updated_at : Int
deriving DecidableEq, Repr

/-- Public job view returned by `POST /fax` and `GET /fax/{id}`.  The JSON
field named `to` is called `toNum` here. -/
structure FaxJobOut where
  id : String
  toNum : String
  status : String
  error : Option String
  pages : Option Nat
  backend : String
  provider_sid : Option String
  created_at : Int
  updated_at : Int
deriving DecidableEq, Repr

/-- `_serialize_job` (main.py lines 2027-2039): the public view copies the
`error` column as stored, with no sanitisation. -/
def serialize_job (j : FaxJob) : FaxJobOut :=
  { id := j.id
    toNum := j.to_number
    status := j.status
    error := j.error
    pages := j.pages
    backend := j.backend
    provider_sid := j.provider_sid
    created_at := j.created_at
    updated_at := j.updated_at }

/-- `db.get(FaxJob, job_id)`: primary-key lookup. -/
def findJob (jobs : List FaxJob) (id : String) : Option FaxJob :=
  jobs.find? (fun j => j.id = id)

/-! ## Error sanitisation and phone masking (main.py lines 207-218) -/

/-- Length of the leading run of digits. -/
def digPrefix (l : List Char) : Nat :=
  (l.takeWhile Char.isDigit).length

/-- Fuel-based scanner behind `sanitizeCore`; the fuel is always at least the
length of the list, so the fuel-exhausted branch is never reached. -/
def sanitizeGo : Nat → List Char → List Char
  | _, [] => []
  | 0, _ :: _ => []
  | fuel + 1, c :: rest =>
    if c = '+' then
      if 6 ≤ digPrefix rest then
        '*' :: '*' :: '*' :: sanitizeGo fuel (rest.dropWhile Char.isDigit)
      else c :: sanitizeGo fuel rest
    else if c.isDigit then
      if 5 ≤ digPrefix rest then
        '*' :: '*' :: '*' :: sanitizeGo fuel (rest.dropWhile Char.isDigit)
      else c :: sanitizeGo fuel rest
    else c :: sanitizeGo fuel rest

/-- `re.sub(r"\+?\d{6,}", "***", text)` (main.py line 217): every maximal
digit run of length at least 6, together with an immediately preceding plus
sign, is replaced by three asterisks; everything else is copied. -/
def sanitizeCore (l : List Char) : List Char :=
  sanitizeGo l.length l

/-- `sanitize_error` (main.py lines 213-218): `None` or empty text gives
`None`; otherwise digit runs are scrubbed and the result truncated to 80
characters. -/
def sanitize_error (t : Option String) : Option String :=
  match t with
  | none => none
  | some s =>
    if s.isEmpty then none
    else some (((sanitizeCore s.toList).take 80).asString)

/-- `mask_phone` (main.py lines 207-210). -/
def mask_phone (p : Option String) : String :=
  match p with
  | none => "****"
  | some s =>
    if s.length < 4 then "****"
    else (List.replicate (s.length - 4) '*').asString
      ++ (s.toList.drop (s.length - 4)).asString

/-- `true` when some position of the list starts a run of at least six
consecutive digits, i.e. when the text still contains a scrubbable number. -/
def hasLongRun : List Char → Bool
  | [] => false
  | c :: rest => decide (6 ≤ digPrefix (c :: rest)) || hasLongRun rest

/-- The JSON object returned by `GET /admin/fax-jobs/{job_id}`
(main.py lines 1203-1220). -/
structure AdminJobView where
  id : String
  to_number : String
  status : String
  backend : String
  pages : Option Nat
  error : Option String
  provider_sid : Option String
  created_at : Int
  updated_at : Int
  file_name : String
deriving DecidableEq, Repr

/-- `get_admin_job` (main.py lines 1203-1220): the admin read path masks the
destination and sanitises the error before returning them. -/
def get_admin_job (jobs : List FaxJob) (jobId : String) :
    Except Nat AdminJobView :=
  match findJob jobs jobId with
  | none => .error 404
  | some job =>
    .ok { id := job.id
          to_number := mask_phone (some job.to_number)
          status := job.status
          backend := job.backend
          pages := job.pages
          error := sanitize_error job.error
          provider_sid := job.provider_sid
          created_at := job.created_at
          updated_at := job.updated_at
          file_name := job.file_name }

/-! ## Dispatch orchestrator: `POST /fax` (main.py `send_fax`, lines 1553-1667)
and `GET /fax/{id}` (`get_fax`, lines 1696-1702) -/

/-- Settings fields consulted by `send_fax`. -/
structure SendSettings where
  fax_backend : String
  fax_disabled : Bool
  max_file_size_mb : Nat
  fax_data_dir : String
deriving Repr

/-- `send_fax`.  `utf8Ok` stands for the Python UTF-8 decoder (an external
library call); `renderPages` for the page count computed by `pdf_to_tiff`
when the SIP backend really renders.  Returns the HTTP outcome (error status
code, or 202 with the serialized job) together with the job table after the
request; the sending itself is a detached background task and never affects
the response, so it is not part of this function. -/
def send_fax (cfg : SendSettings) (utf8Ok : List Nat → Bool) (renderPages : Nat)
    (freshId : String) (now : Int) (toNum fileName : String) (content : List Nat)
    (jobs : List FaxJob) : Except Nat (Nat × FaxJobOut) × List FaxJob :=
  if ¬ PHONE_RE_match toNum then (.error 400, jobs)
  else if content.length > cfg.max_file_size_mb * 1024 * 1024 then (.error 413, jobs)
  else
    let firstChunk := content.take 65536
    let isPdf := decide (firstChunk.take 4 = [0x25, 0x50, 0x44, 0x46])
    let isText := !isPdf && utf8Ok firstChunk
    if ¬ (isPdf || isText) then (.error 415, jobs)
    else
      let pages : Option Nat :=
        if cfg.fax_backend = "phaxio" then none
        else if cfg.fax_backend = "sinch" then none
        else if cfg.fax_disabled then some 1 else some renderPages
      let job : FaxJob :=
        { id := freshId
          to_number := toNum
          file_name := fileName
          tiff_path := cfg.fax_data_dir ++ "/" ++ freshId ++ ".tiff"
          status := "queued"
          pages := pages
          backend := cfg.fax_backend
          created_at := now
          updated_at := now }
      (.ok (202, serialize_job job), jobs ++ [job])

/-- `get_fax` (main.py lines 1696-1702). -/
def get_fax (jobs : List FaxJob) (id : String) : Except Nat FaxJobOut :=
  match findJob jobs id with
  | none => .error 404
  | some j => .ok (serialize_job j)

/-! ## Rate limiter (`_enforce_rate_limit`, main.py lines 49-84)

Fixed one-minute windows over an in-memory dict keyed by `key_id|path`. -/

/-- One bucket of `_rate_buckets`. -/
structure Bucket where
  window : Nat
  count : Nat
deriving DecidableEq, Repr

/-- The `_rate_buckets` dict, as an association list with unique keys. -/
abbrev RLState := List (String × Bucket)

def lookupBucket (st : RLState) (k : String) : Option Bucket :=
  (st.find? (fun p => p.1 = k)).map (fun p => p.2)

/-- Dict update: replace the binding if the key is present, else append. -/
def setBucket : RLState → String → Bucket → RLState
  | [], k, b => [(k, b)]
  | (k', b') :: rest, k, b =>
    if k' = k then (k, b) :: rest else (k', b') :: setBucket rest k b

/-- `limit = int(limit or settings.max_requests_per_minute)` (line 55): a
passed per-route limit of `None` or `0` (falsy) falls back to the global
default; any other value, negative included, wins. -/
def resolveLimit (routeLimit : Option Int) (globalLimit : Int) : Int :=
  match routeLimit with
  | some l => if l = 0 then globalLimit else l
  | none => globalLimit

/-- `_enforce_rate_limit`.  `routeLimit` is the optional per-route `limit`
argument, `globalLimit` is `settings.max_requests_per_minute`, `info` is the
authenticated key id (`None` for unauthenticated dev requests), `now` is
`time.time()` in whole seconds.  Returns the updated bucket dict and
`some retryAfter` when the request is rejected with 429. -/
def enforce_rate_limit (routeLimit : Option Int) (globalLimit : Int)
    (info : Option String) (path : String) (now : Nat) (st : RLState) :
    RLState × Option Nat :=
  let limit : Int := resolveLimit routeLimit globalLimit
  if limit ≤ 0 then (st, none)
  else match info with
    | none => (st, none)
    | some keyId =>
      let nowMin := now / 60
      let st1 := st.filter (fun p => p.2.window = nowMin)
      let bkey := keyId ++ "|" ++ path
      let bucket := match lookupBucket st1 bkey with
        | some b => if b.window = nowMin then b else ⟨nowMin, 0⟩
        | none => ⟨nowMin, 0⟩
      let bucket : Bucket := ⟨bucket.window, bucket.count + 1⟩
      let st2 := setBucket st1 bkey bucket
      if limit < (bucket.count : Int) then
        (st2, some (max 1 ((nowMin + 1) * 60 - now)))
      else (st2, none)

/-- A sequence of identical calls to the rate limiter; returns the final
bucket state and the per-call outcomes in order. -/
def rlRun (routeLimit : Option Int) (globalLimit : Int) (info : Option String)
    (path : String) (now : Nat) : Nat → RLState → RLState × List (Option Nat)
  | 0, st => (st, [])
  | n + 1, st =>
    let p := enforce_rate_limit routeLimit globalLimit info path now st
    let q := rlRun routeLimit globalLimit info path now n p.1
    (q.1, p.2 :: q.2)

/-! ## Tokenized artifact access (`get_fax_pdf`, main.py lines 1823-1875) -/

/-- Split a character list at every occurrence of `sep` (the list analogue of
`str.split(sep)`); the result is never empty. -/
def splitOnChar (sep : Char) (l : List Char) : List (List Char) :=
  l.foldr (fun c acc => match acc with
    | [] => [[c]]
    | cur :: rest => if c = sep then [] :: cur :: rest else (c :: cur) :: rest) [[]]

/-- `parse_qs(urlparse(url).query).get("token", [None])[0]` followed by the
truthiness test `if t:` (main.py lines 1838-1842): the first non-empty value
of the `token` parameter of the query string (the part of the URL after the
first question mark and before any fragment). -/
def extractUrlToken (url : String) : Option String :=
  let afterQ : List Char := match splitOnChar '?' url.toList with
    | _ :: rest => List.intercalate ['?'] rest
    | [] => []
  let query := (splitOnChar '#' afterQ).headD []
  let fields := splitOnChar '&' query
  ((fields.filterMap (fun f =>
      match splitOnChar '=' f with
      | k :: v :: vs =>
        if k = "token".toList then some (List.intercalate ['='] (v :: vs)) else none
      | _ => none)).find? (fun v => ¬ v.isEmpty)).map List.asString

/-- Expected-token resolution of `get_fax_pdf` (main.py lines 1833-1847):
the stored `pdf_token` when present and non-empty, else the `token` query
parameter embedded in the stored `pdf_url`. -/
def resolveExpectedToken (j : FaxJob) : Option String :=
  let fromUrl : Option String := match j.pdf_url with
    | some u => if u.isEmpty then none else extractUrlToken u
    | none => none
  match j.pdf_token with
  | some t => if t.isEmpty then fromUrl else some t
  | none => fromUrl

/-- Outcome of `GET /fax/{id}/pdf`. -/
inductive PdfResult where
  | served
  | err (code : Nat) (detail : String)
deriving DecidableEq, Repr

/-- `get_fax_pdf` (main.py lines 1823-1875).  `files` is the set of paths on
disk; `now` is `datetime.utcnow()`.  The endpoint never mutates any row. -/
def get_fax_pdf (dataDir : String) (now : Int) (jobId : String) (token : String)
    (jobs : List FaxJob) (files : List String) : PdfResult :=
  match findJob jobs jobId with
  | none => .err 404 "Job not found"
  | some job =>
    match resolveExpectedToken job with
    | none => .err 404 "PDF not available"
    | some expected =>
      if token ≠ expected then .err 403 "Invalid token"
      else if (match job.pdf_token_expires_at with
               | some exp => decide (exp < now)
               | none => false) then .err 403 "Token expired"
      else if (dataDir ++ "/" ++ jobId ++ ".pdf") ∈ files then .served
      else .err 404 "PDF file not found"

/-! ## Retention sweep (`_cleanup_once`, main.py lines 1757-1787)

Only the outbound half is embedded; the inbound half of the pass touches
only `InboundFax` rows.  `fails` is an oracle marking the records whose
processing raises an exception (the `except Exception: continue` path). -/

/-- `final_statuses` (main.py line 1759). -/
def isFinalStatus (s : String) : Bool :=
  s = "SUCCESS" || s = "FAILED" || s = "failed" || s = "disabled"

/-- A record is swept when its `updated_at` is before the cutoff and its
status is terminal (main.py line 1769). -/
def shouldClean (cutoff : Int) (j : FaxJob) : Bool :=
  decide (j.updated_at < cutoff) && isFinalStatus j.status

/-- The artifact paths removed for one swept job: the rendered PDF
`{dataDir}/{id}.pdf`, the stored `tiff_path` when non-empty, and every file
matching the glob `{dataDir}/{id}-*` (the original upload). -/
def cleanupMatch (dataDir : String) (j : FaxJob) (f : String) : Bool :=
  f = dataDir ++ "/" ++ j.id ++ ".pdf"
  || (!j.tiff_path.isEmpty && f = j.tiff_path)
  || (dataDir ++ "/" ++ j.id ++ "-").toList.isPrefixOf f.toList

/-- One iteration of the sweep loop body for one job row: a record for which
`fails` holds raises, deletes nothing, and the `except Exception: continue`
moves on; an eligible record has its artifact files removed. -/
def cleanupStep (dataDir : String) (cutoff : Int) (fails : String → Bool)
    (fs : List String) (j : FaxJob) : List String :=
  if fails j.id then fs
  else if shouldClean cutoff j then fs.filter (fun f => ¬ cleanupMatch dataDir j f)
  else fs

/-- Outbound half of `_cleanup_once`: iterate over all job rows, deleting the
artifact files of terminal rows older than the cutoff; a failing record is
skipped and the loop continues with the next record.  Job rows are never
written. -/
def cleanup_once (dataDir : String) (ttlDays : Nat) (now : Int)
    (fails : String → Bool) (jobs : List FaxJob) (files : List String) :
    List FaxJob × List String :=
  let cutoff : Int := now - (max 1 ttlDays : Nat) * 86400
  (jobs, jobs.foldl (cleanupStep dataDir cutoff fails) files)

/-! ## Webhook ingestion

`phaxio_callback` (main.py lines 1878-1923), `_handle_fax_result`
(lines 263-283) and `phaxio_inbound` (lines 2251-2377). -/

/-- Response of a webhook endpoint: 200 with a `{"status": body}` JSON, or
an HTTP error. -/
inductive WebhookResp where
  | ok (body : String)
  | err (code : Nat) (detail : String)
deriving DecidableEq, Repr

/-- Python `str.isspace` characters relevant to `strip()`. -/
def pySpace (c : Char) : Bool :=
  c = ' ' || c = '\t' || c = '\n' || c = '\r' || c = '\x0b' || c = '\x0c'

/-- `provided.strip().lower()`. -/
def stripLower (s : String) : String :=
  ((((s.toList.dropWhile pySpace).reverse.dropWhile pySpace).reverse).map
    Char.toLower).asString

/-- Phaxio signature gate shared by `phaxio_callback` (lines 1883-1892) and
`phaxio_inbound` (lines 2256-2265).  `mac` stands for
`hmac.new(secret, raw, sha256).hexdigest()`; the header value is compared
after `strip().lower()`.  Returns the 401 response when the gate rejects. -/
def phaxio_sig_gate (verify : Bool) (secret : String) (header : Option String)
    (mac : String → String → String) (raw : String) : Option WebhookResp :=
  if verify then
    match header with
    | none => some (.err 401 "Missing Phaxio signature")
    | some h =>
      if h.isEmpty then some (.err 401 "Missing Phaxio signature")
      else if secret.isEmpty then some (.err 401 "Phaxio secret not configured")
      else if mac secret raw ≠ stripLower h then
        some (.err 401 "Invalid Phaxio signature")
      else none
  else none

/-- Normalized delivery-status fields produced from a Phaxio callback. -/
structure StatusInfo where
  status : String
  pages : Option Nat
  errorMessage : Option String
deriving DecidableEq, Repr

/-- Modelled from the spec: `PhaxioFaxService.handle_status_callback` lives in
phaxio_service.py, which is absent from the sources.  Spec section 4.3 step (2)
says provider fields are parsed into a normalized `{provider_sid, from, to,
pages, status, fileURL}` shape, and the integration test
(test_phaxio_integration.py) shows provider status `success` maps to job
status `SUCCESS` with the reported page count.  The mapping is deterministic
in the payload. -/
def handle_status_callback (d : StatusInfo) : StatusInfo :=
  { status :=
      if d.status = "success" then "SUCCESS"
      else if d.status = "failure" || d.status = "failed" then "FAILED"
      else "in_progress"
    pages := d.pages
    errorMessage := d.errorMessage }

/-- The row update of `phaxio_callback` (main.py lines 1909-1920): the status
is overwritten unconditionally; error and pages only when the callback
carries truthy values; `updated_at` is set to the write time. -/
def apply_status_update (info : StatusInfo) (now : Int) (j : FaxJob) : FaxJob :=
  { j with
    status := info.status
    error := match info.errorMessage with
      | some e => if e.isEmpty then j.error else some e
      | none => j.error
    pages := match info.pages with
      | some p => if p = 0 then j.pages else some p
      | none => j.pages
    updated_at := now }

/-- `phaxio_callback` (main.py lines 1878-1923).  `parse` stands for the
form parsing of the raw body, `configured` for `get_phaxio_service()`
returning a usable service, `jobIdParam` for the `job_id` query parameter. -/
def phaxio_callback (verify : Bool) (secret : String) (configured : Bool)
    (mac : String → String → String) (header : Option String) (raw : String)
    (parse : String → StatusInfo) (jobIdParam : Option String) (now : Int)
    (jobs : List FaxJob) : List FaxJob × WebhookResp :=
  match phaxio_sig_gate verify secret header mac raw with
  | some e => (jobs, e)
  | none =>
    let data := parse raw
    match jobIdParam with
    | none => (jobs, .ok "no job_id provided")
    | some jobId =>
      if ¬ configured then (jobs, .ok "phaxio not configured")
      else
        let info := handle_status_callback data
        let jobs' := jobs.map (fun j =>
          if j.id = jobId then apply_status_update info now j else j)
        (jobs', .ok "ok")

/-- An AMI fax-result event as consumed by `_handle_fax_result`; each field
is the first truthy value of the two header spellings, `none` when absent or
falsy. -/
structure AmiEvent where
  jobId : Option String
  status : Option String
  error : Option String
  pages : Option String
deriving DecidableEq, Repr

/-- `_handle_fax_result` (main.py lines 263-283): looks the job up by the
event id and overwrites status (when the event carries a non-empty one),
error (unconditionally), pages (when parseable) and `updated_at`.  There is
no terminal-state guard. -/
def handle_fax_result (e : AmiEvent) (now : Int) (jobs : List FaxJob) :
    List FaxJob :=
  match e.jobId with
  | none => jobs
  | some jid =>
    jobs.map (fun j =>
      if j.id = jid then
        { j with
          status := match e.status with
            | some s => if s.isEmpty then j.status else s
            | none => j.status
          error := e.error
          pages := match e.pages with
            | some p =>
              if p.isEmpty then j.pages
              else match p.toNat? with
                | some n => some n
                | none => j.pages
            | none => j.pages
          updated_at := now }
      else j)

/-- Row of the `inbound_faxes` table, with the fields set by the
`InboundFax(...)` constructor call in `phaxio_inbound` (main.py lines
2352-2375); the table definition itself lives in the part of db.py absent
from the sources. -/
structure InboundFax where
  id : String
  from_number : Option String
  to_number : Option String
  status : String
  backend : String
  provider_sid : Option String
  pages : Option Nat
  size_bytes : Nat
  sha256 : String
  pdf_path : Option String
  tiff_path : Option String
  mailbox_label : Option String
  retention_until : Option Int
  pdf_token : String
  pdf_token_expires_at : Int
  created_at : Int
  received_at : Int
  updated_at : Int
deriving DecidableEq, Repr

/-- Durable state touched by inbound webhook ingestion: the dedup ledger
(`InboundEvent` rows as (provider_sid, event_type) pairs), the inbound fax
rows, and the stored artifacts. -/
structure InboundState where
  events : List (String × String)
  faxes : List InboundFax
  files : List String
deriving DecidableEq, Repr

/-- Fields extracted from an inbound webhook payload by `get_nested`
(main.py lines 2284-2289); `none` stands for an absent or falsy value. -/
structure InboundPayload where
  provider_sid : Option String
  from_number : Option String
  to_number : Option String
  pages : Option String
  status : Option String
  file_url : Option String
deriving DecidableEq, Repr

/-- Modelled from the spec: the `InboundEvent` table definition is absent
from src/api/app/db.py (main.py only imports and inserts it).  Per the spec
(section 3, WebhookReceipt) the table has composite uniqueness over
(provider external id, event-type label) and a second insert for the same
pair fails distinguishably.  The insert therefore fails exactly when the
pair is already present. -/
def insertInboundEvent (events : List (String × String)) (sid etype : String) :
    Option (List (String × String)) :=
  if (sid, etype) ∈ events then none
  else some (events ++ [(sid, etype)])

/-- `b"%PDF-1.4\n% placeholder inbound\n%%EOF"` (main.py line 2329). -/
def placeholderPdf : List Nat :=
  "%PDF-1.4\n% placeholder inbound\n%%EOF".toList.map Char.toNat

/-- `phaxio_inbound` (main.py lines 2251-2377).  `parse` stands for the
form/JSON parsing plus the `get_nested` field extraction, `fetch` for the
best-effort HTTP download of the remote artifact, `sha` for
`hashlib.sha256(...).hexdigest()`, `freshId`/`freshToken` for the generated
uuid and `secrets.token_urlsafe(32)`. -/
def phaxio_inbound (inboundEnabled verify : Bool) (secret : String)
    (mac : String → String → String) (header : Option String) (raw : String)
    (parse : String → InboundPayload) (fetch : String → Option (List Nat))
    (sha : List Nat → String) (freshId freshToken : String) (now : Int)
    (tokenTtlMin : Nat) (retentionDays : Nat) (st : InboundState) :
    InboundState × WebhookResp :=
  if ¬ inboundEnabled then (st, .err 404 "Inbound not enabled")
  else
    match phaxio_sig_gate verify secret header mac raw with
    | some e => (st, e)
    | none =>
      let p := parse raw
      let status := match p.status with
        | some s => if s.isEmpty then "received" else s
        | none => "received"
      match p.provider_sid with
      | none => (st, .ok "ignored")
      | some sid =>
        match insertInboundEvent st.events sid "phaxio-inbound" with
        | none => (st, .ok "ok")
        | some events1 =>
          let pdfBytes := match p.file_url with
            | some u => if u.isEmpty then none else fetch u
            | none => none
          let bytes := pdfBytes.getD placeholderPdf
          let storedName := freshId ++ ".pdf"
          let fx : InboundFax :=
            { id := freshId
              from_number := p.from_number
              to_number := p.to_number
              status := status
              backend := "phaxio"
              provider_sid := some sid
              pages := match p.pages with
                | some s => if s.isEmpty then none else s.toNat?
                | none => none
              size_bytes := bytes.length
              sha256 := sha bytes
              pdf_path := some storedName
              tiff_path := none
              mailbox_label := none
              retention_until :=
                if retentionDays > 0 then some (now + (retentionDays : Int) * 86400)
                else none
              pdf_token := freshToken
              pdf_token_expires_at := now + ((max 1 tokenTtlMin : Nat) : Int) * 60
              created_at := now
              received_at := now
              updated_at := now }
          ({ events := events1
             faxes := st.faxes ++ [fx]
             files := st.files ++ [storedName] }, .ok "ok")

/-! ## Claims -/

/-! Sanity checks of the embedded primitives on concrete inputs. -/

example : PHONE_RE_match "+15551230001" = true := by decide
example : PHONE_RE_match "abc" = false := by decide
example : PHONE_RE_match "12345" = false := by decide
example : PHONE_RE_match "123456" = true := by decide
example : PHONE_RE_match "123456\n" = true := by decide
example : specPhoneRule "123456\n" = false := by decide

example : sanitize_error (some "Dial to +15551234567 busy") =
    some "Dial to *** busy" := by decide
example : sanitize_error (some "code 12345 ok") = some "code 12345 ok" := by decide
example : sanitize_error (some "") = none := by decide

example : extractUrlToken "https://api.example/fax/j1/pdf?token=abc123" =
    some "abc123" := by decide
example : extractUrlToken "https://api.example/fax/j1/pdf" = none := by decide
example : extractUrlToken "https://e/x?a=1&token=t0&token=t1" = some "t0" := by
  decide


/-- C7: a destination rejected by the code's `PHONE_RE` gets a 400 and no
job row is created — validation is the first step of `send_fax`, before any
persistence. -/
theorem claim_C7_amended (cfg : SendSettings) (utf8Ok : List Nat → Bool)
    (renderPages : Nat) (freshId : String) (now : Int) (toNum fileName : String)
    (content : List Nat) (jobs : List FaxJob)
    (h : PHONE_RE_match toNum = false) :
    send_fax cfg utf8Ok renderPages freshId now toNum fileName content jobs =
      (.error 400, jobs) := by
  simp [send_fax, h]

theorem claim_C7_amended_witness :
    PHONE_RE_match "abc" = false ∧
    send_fax ⟨"phaxio", true, 10, "./faxdata"⟩ (fun _ => true) 1 "j1" 0 "abc"
      "f.txt" [104, 105] [] = (.error 400, []) :=
  ⟨by decide,
   claim_C7_amended ⟨"phaxio", true, 10, "./faxdata"⟩ (fun _ => true) 1 "j1" 0
     "abc" "f.txt" [104, 105] [] (by decide)⟩

/-- C7 counterexample: the destination "123456\n" fails the spec's
validation rule (digits only, optional leading plus, length 6-20) because of
the trailing newline, yet `POST /fax` does not return 400: Python `$`
matches before a trailing newline, so `PHONE_RE` accepts it and a job row is
created. -/
theorem claim_C7_cex :
    specPhoneRule "123456\n" = false ∧
    (send_fax ⟨"phaxio", false, 10, "./faxdata"⟩ (fun _ => true) 1 "j1" 0
        "123456\n" "doc.pdf" [0x25, 0x50, 0x44, 0x46] []).1.toOption =
      some (202, ⟨"j1", "123456\n", "queued", none, none, "phaxio", none, 0, 0⟩) ∧
    ((send_fax ⟨"phaxio", false, 10, "./faxdata"⟩ (fun _ => true) 1 "j1" 0
        "123456\n" "doc.pdf" [0x25, 0x50, 0x44, 0x46] []).2.map
      FaxJob.status) = ["queued"] := by
  refine ⟨by decide, ?_, ?_⟩ <;> decide

/-- C4 (amended): a valid submission made while sending is globally disabled
returns 202 with status "queued" (not "disabled") and an id, the job row is
created as "queued", no dispatch runs, and a subsequent `GET /fax/{id}`
returns that same "queued" status. -/
theorem claim_C4_amended (cfg : SendSettings) (utf8Ok : List Nat → Bool)
    (renderPages : Nat) (freshId : String) (now : Int) (toNum fileName : String)
    (content : List Nat) (jobs : List FaxJob)
    (_hdis : cfg.fax_disabled = true)
    (hphone : PHONE_RE_match toNum = true)
    (hpdf : (content.take 65536).take 4 = [0x25, 0x50, 0x44, 0x46])
    (hsize : content.length ≤ cfg.max_file_size_mb * 1024 * 1024)
    (hfresh : findJob jobs freshId = none) :
    ((send_fax cfg utf8Ok renderPages freshId now toNum fileName content
        jobs).1.toOption.map (fun r => (r.1, r.2.id, r.2.status)))
      = some (202, freshId, "queued") ∧
    ((get_fax (send_fax cfg utf8Ok renderPages freshId now toNum fileName
        content jobs).2 freshId).toOption.map FaxJobOut.status)
      = some "queued" := by
  have h1 : ¬ content.length > cfg.max_file_size_mb * 1024 * 1024 :=
    Nat.not_lt.mpr hsize
  simp only [findJob] at hfresh
  constructor
  · simp [send_fax, hphone, hpdf, h1, serialize_job, Except.toOption]
  · simp [send_fax, hphone, hpdf, h1, get_fax, findJob, List.find?_append,
      hfresh, serialize_job, Except.toOption]

theorem claim_C4_amended_witness :
    ((send_fax ⟨"phaxio", true, 10, "./faxdata"⟩ (fun _ => true) 1 "j1" 0
        "+15551230001" "hello.pdf" [0x25, 0x50, 0x44, 0x46]
        []).1.toOption.map (fun r => (r.1, r.2.id, r.2.status)))
      = some (202, "j1", "queued") ∧
    ((get_fax (send_fax ⟨"phaxio", true, 10, "./faxdata"⟩ (fun _ => true) 1
        "j1" 0 "+15551230001" "hello.pdf" [0x25, 0x50, 0x44, 0x46]
        []).2 "j1").toOption.map FaxJobOut.status) = some "queued" :=
  claim_C4_amended ⟨"phaxio", true, 10, "./faxdata"⟩ (fun _ => true) 1 "j1" 0
    "+15551230001" "hello.pdf" [0x25, 0x50, 0x44, 0x46] [] (by decide)
    (by decide) (by decide) (by decide) (by decide)

/-- C4 counterexample: submitting a valid text file to "+15551230001" with
sending globally disabled yields a job whose status is "queued", and
`GET /fax/{id}` also returns "queued" — never "disabled". -/
theorem claim_C4_cex :
    ((send_fax ⟨"phaxio", true, 10, "./faxdata"⟩
        (fun bs => bs.all (fun b => b < 128)) 1 "j1" 0 "+15551230001"
        "hello.txt" [104, 101, 108, 108, 111] []).2.map FaxJob.status)
      = ["queued"] ∧
    ((get_fax (send_fax ⟨"phaxio", true, 10, "./faxdata"⟩
        (fun bs => bs.all (fun b => b < 128)) 1 "j1" 0 "+15551230001"
        "hello.txt" [104, 101, 108, 108, 111] []).2 "j1").toOption.map
      FaxJobOut.status) = some "queued" ∧
    ("queued" : String) ≠ "disabled" := by
  refine ⟨?_, ?_, by decide⟩ <;> decide

/-- C1 (amended): both status-update operations apply last-write-wins with no
terminal-state guard.  The AMI result handler overwrites the status of a job
already in a terminal state with the status carried by the event, and the
Phaxio callback overwrites it with the status normalized from the payload,
whatever the stored status was. -/
theorem claim_C1_amended :
    (∀ (j : FaxJob) (e : AmiEvent) (now : Int) (s : String),
       isFinalStatus j.status = true → e.jobId = some j.id →
       e.status = some s → s.isEmpty = false →
       (handle_fax_result e now [j]).map FaxJob.status = [s]) ∧
    (∀ (j : FaxJob) (secret : String) (mac : String → String → String)
       (raw : String) (parse : String → StatusInfo) (now : Int),
       isFinalStatus j.status = true →
       ((phaxio_callback false secret true mac none raw parse (some j.id) now
          [j]).1.map FaxJob.status) =
         [(handle_status_callback (parse raw)).status]) := by
  constructor
  · intro j e now s _ hid hs hne
    simp [handle_fax_result, hid, hs, hne]
  · intro j secret mac raw parse now _
    simp [phaxio_callback, phaxio_sig_gate, apply_status_update]

theorem claim_C1_amended_witness :
    (handle_fax_result ⟨some "j1", some "failed", none, none⟩ 5
      [⟨"j1", "+15551230001", "f.pdf", "", "SUCCESS", none, none, "phaxio",
        none, none, none, none, 0, 0⟩]).map FaxJob.status = ["failed"] ∧
    ((phaxio_callback false "sec" true (fun _ _ => "") (none : Option String)
        "raw" (fun _ => ⟨"success", none, none⟩) (some "j1") 9
        [⟨"j1", "+15551230001", "f.pdf", "", "FAILED", none, none, "phaxio",
          none, none, none, none, 0, 0⟩]).1.map FaxJob.status) = ["SUCCESS"] :=
  ⟨claim_C1_amended.1
      ⟨"j1", "+15551230001", "f.pdf", "", "SUCCESS", none, none, "phaxio",
        none, none, none, none, 0, 0⟩
      ⟨some "j1", some "failed", none, none⟩ 5 "failed"
      (by decide) (by decide) (by decide) (by decide),
   claim_C1_amended.2
      ⟨"j1", "+15551230001", "f.pdf", "", "FAILED", none, none, "phaxio",
        none, none, none, none, 0, 0⟩
      "sec" (fun _ _ => "") "raw" (fun _ => ⟨"success", none, none⟩) 9
      (by decide)⟩

/-- C1 counterexample: a job whose status is the terminal "SUCCESS" is moved
to "in_progress" by an AMI result event — the status-update operation does
not leave a terminal job unchanged. -/
theorem claim_C1_cex :
    isFinalStatus "SUCCESS" = true ∧
    (handle_fax_result ⟨some "j1", some "in_progress", none, none⟩ 5
      [⟨"j1", "+15551230001", "f.pdf", "", "SUCCESS", none, none, "phaxio",
        none, none, none, none, 0, 0⟩]).map FaxJob.status = ["in_progress"] ∧
    ("in_progress" : String) ≠ "SUCCESS" := by
  exact ⟨by decide, by decide, by decide⟩

/-! ### Sanitiser lemmas for C9 -/

theorem dropWhile_length_le (p : Char → Bool) (l : List Char) :
    (l.dropWhile p).length ≤ l.length := by
  induction l with
  | nil => simp [List.dropWhile]
  | cons c t ih =>
    simp only [List.dropWhile]
    by_cases h : p c
    · simp only [h]
      exact le_trans ih (Nat.le_succ _)
    · simp [h]

theorem digPrefix_cons (c : Char) (t : List Char) :
    digPrefix (c :: t) = if c.isDigit then digPrefix t + 1 else 0 := by
  simp only [digPrefix, List.takeWhile_cons]
  split <;> simp

theorem hasLongRun_cons (c : Char) (t : List Char) :
    hasLongRun (c :: t) = (decide (6 ≤ digPrefix (c :: t)) || hasLongRun t) :=
  rfl

theorem sanitizeGo_good : ∀ (fuel : Nat) (l : List Char), l.length ≤ fuel →
    hasLongRun (sanitizeGo fuel l) = false ∧
    digPrefix (sanitizeGo fuel l) ≤ digPrefix l := by
  intro fuel
  induction fuel with
  | zero =>
    intro l hl
    match l with
    | [] => simp [sanitizeGo, hasLongRun, digPrefix]
  | succ fuel ih =>
    intro l hl
    match l with
    | [] => simp [sanitizeGo, hasLongRun, digPrefix]
    | c :: rest =>
      have hrest : rest.length ≤ fuel := by
        simp only [List.length_cons] at hl; omega
      have hdrop : (rest.dropWhile Char.isDigit).length ≤ fuel :=
        le_trans (dropWhile_length_le _ _) hrest
      simp only [sanitizeGo]
      by_cases hplus : c = '+'
      · subst hplus
        rw [if_pos rfl]
        by_cases h6 : 6 ≤ digPrefix rest
        · rw [if_pos h6]
          obtain ⟨ih1, ih2⟩ := ih _ hdrop
          refine ⟨?_, ?_⟩
          · simp [hasLongRun_cons, digPrefix_cons, ih1]
          · simp [digPrefix_cons]
        · rw [if_neg h6]
          obtain ⟨ih1, ih2⟩ := ih _ hrest
          refine ⟨?_, ?_⟩
          · simp [hasLongRun_cons, digPrefix_cons, ih1]
          · simp [digPrefix_cons]
      · rw [if_neg hplus]
        by_cases hdig : c.isDigit
        · rw [if_pos hdig]
          by_cases h5 : 5 ≤ digPrefix rest
          · rw [if_pos h5]
            obtain ⟨ih1, ih2⟩ := ih _ hdrop
            refine ⟨?_, ?_⟩
            · simp [hasLongRun_cons, digPrefix_cons, ih1]
            · simp [digPrefix_cons, hdig]
          · rw [if_neg h5]
            obtain ⟨ih1, ih2⟩ := ih _ hrest
            have hb : digPrefix (sanitizeGo fuel rest) ≤ 4 := by omega
            refine ⟨?_, ?_⟩
            · simp only [hasLongRun_cons, digPrefix_cons, hdig, if_pos, ih1,
                Bool.or_false, decide_eq_false_iff_not]
              omega
            · simp only [digPrefix_cons, hdig, if_pos]
              omega
        · rw [if_neg hdig]
          obtain ⟨ih1, ih2⟩ := ih _ hrest
          refine ⟨?_, ?_⟩
          · simp [hasLongRun_cons, digPrefix_cons, hdig, ih1]
          · simp [digPrefix_cons, hdig]

theorem digPrefix_take_le (n : Nat) (l : List Char) :
    digPrefix (l.take n) ≤ digPrefix l := by
  induction l generalizing n with
  | nil => simp [digPrefix]
  | cons c t ih =>
    cases n with
    | zero => simp [digPrefix]
    | succ n =>
      simp only [List.take_succ_cons, digPrefix_cons]
      split
      · exact Nat.add_le_add_right (ih n) 1
      · exact le_refl 0

theorem hasLongRun_take (n : Nat) (l : List Char)
    (h : hasLongRun l = false) : hasLongRun (l.take n) = false := by
  induction l generalizing n with
  | nil => simp [hasLongRun]
  | cons c t ih =>
    cases n with
    | zero => simp [hasLongRun]
    | succ n =>
      rw [List.take_succ_cons]
      rw [hasLongRun_cons] at h ⊢
      simp only [Bool.or_eq_false_iff, decide_eq_false_iff_not] at h ⊢
      obtain ⟨h1, h2⟩ := h
      have hle : digPrefix (c :: t.take n) ≤ digPrefix (c :: t) := by
        simp only [digPrefix_cons]
        split
        · exact Nat.add_le_add_right (digPrefix_take_le n t) 1
        · exact le_refl 0
      exact ⟨fun hc => h1 (le_trans hc hle), ih n h2⟩

/-- C9 (amended): the stored error is persisted unsanitised; the admin read
paths expose it only through `sanitize_error`, whose output never contains a
digit run of length six or more and is at most 80 characters; but the public
job view (`_serialize_job`, used by `POST /fax` and `GET /fax/{id}`) returns
the stored error text unchanged, with no sanitisation. -/
theorem claim_C9_amended :
    (∀ j : FaxJob, (serialize_job j).error = j.error) ∧
    (∀ (jobs : List FaxJob) (id : String),
       (get_admin_job jobs id).toOption.map AdminJobView.error =
         (findJob jobs id).map (fun j => sanitize_error j.error)) ∧
    (∀ (t : Option String) (s : String), sanitize_error t = some s →
       hasLongRun s.toList = false ∧ s.length ≤ 80) := by
  refine ⟨fun j => rfl, ?_, ?_⟩
  · intro jobs id
    cases h : findJob jobs id <;> simp [get_admin_job, h, Except.toOption]
  · intro t s h
    match t with
    | none => simp [sanitize_error] at h
    | some s0 =>
      simp only [sanitize_error] at h
      by_cases he : s0.isEmpty
      · simp [he] at h
      · rw [if_neg he] at h
        have hs : s = ((sanitizeCore s0.toList).take 80).asString :=
          (Option.some_injective _ h).symm
        subst hs
        constructor
        · rw [List.toList_asString]
          exact hasLongRun_take 80 _
            (sanitizeGo_good s0.toList.length s0.toList (le_refl _)).1
        · rw [List.length_asString]
          exact le_trans (List.length_take_le _ _) (le_refl 80)

theorem claim_C9_amended_witness :
    hasLongRun ("call *** now" : String).toList = false ∧
    ("call *** now" : String).length ≤ 80 :=
  claim_C9_amended.2.2 (some "call +15551234567 now") "call *** now"
    (by decide)

/-- C9 counterexample: a failed job whose stored error embeds a fax number
is returned verbatim — digits included — by the public job view, so the
public read path does not sanitise before exposure. -/
theorem claim_C9_cex :
    (serialize_job ⟨"j1", "+15551230001", "f.pdf", "", "failed",
        some "Dial failed to +15551234567: busy", none, "sip", none, none,
        none, none, 0, 0⟩).error = some "Dial failed to +15551234567: busy" ∧
    hasLongRun ("Dial failed to +15551234567: busy" : String).toList = true ∧
    sanitize_error (some "Dial failed to +15551234567: busy") ≠
      some "Dial failed to +15551234567: busy" := by
  exact ⟨by decide, by decide, by decide⟩

/-- C3: with signature verification enabled, a webhook whose HMAC digest of
the raw body does not match the normalized header value — or whose signature
header or configured secret is missing — is rejected with 401 by both Phaxio
endpoints, with the state (job rows, receipts, inbound rows, stored files)
unchanged; the rejection is independent of the body parser, which is never
consulted. -/
theorem claim_C3 (secret : String) (mac : String → String → String)
    (header : Option String) (raw : String)
    (hrej : header = none ∨
      ∃ h, header = some h ∧
        (h.isEmpty = true ∨ secret.isEmpty = true ∨
          mac secret raw ≠ stripLower h)) :
    ∃ d, (∀ (configured : Bool) (parse : String → StatusInfo)
            (jobIdParam : Option String) (now : Int) (jobs : List FaxJob),
            phaxio_callback true secret configured mac header raw parse
              jobIdParam now jobs = (jobs, .err 401 d)) ∧
         (∀ (parse : String → InboundPayload)
            (fetch : String → Option (List Nat)) (sha : List Nat → String)
            (freshId freshToken : String) (now : Int) (ttl ret : Nat)
            (st : InboundState),
            phaxio_inbound true true secret mac header raw parse fetch sha
              freshId freshToken now ttl ret st = (st, .err 401 d)) := by
  have hgate : ∃ d, phaxio_sig_gate true secret header mac raw =
      some (.err 401 d) := by
    rcases hrej with h | ⟨h, rfl, hcase⟩
    · subst h
      exact ⟨"Missing Phaxio signature", rfl⟩
    · by_cases he : h.isEmpty
      · exact ⟨"Missing Phaxio signature", by simp [phaxio_sig_gate, he]⟩
      · by_cases hs : secret.isEmpty
        · exact ⟨"Phaxio secret not configured", by simp [phaxio_sig_gate, he, hs]⟩
        · have hmac : mac secret raw ≠ stripLower h := by
            rcases hcase with h1 | h1 | h1
            · exact absurd h1 he
            · exact absurd h1 hs
            · exact h1
          exact ⟨"Invalid Phaxio signature",
            by simp [phaxio_sig_gate, he, hs, hmac]⟩
  obtain ⟨d, hd⟩ := hgate
  refine ⟨d, ?_, ?_⟩
  · intro configured parse jobIdParam now jobs
    simp [phaxio_callback, hd]
  · intro parse fetch sha freshId freshToken now ttl ret st
    simp [phaxio_inbound, hd]

theorem claim_C3_witness :
    ∃ d,
      phaxio_callback true "s3cr3t" true (fun a b => a ++ "|" ++ b)
        (some "deadbeef") "body" (fun _ => ⟨"success", none, none⟩)
        (some "j1") 7 [] = ([], .err 401 d) ∧
      phaxio_inbound true true "s3cr3t" (fun a b => a ++ "|" ++ b)
        (some "deadbeef") "body"
        (fun _ => ⟨some "px1", none, none, none, none, none⟩)
        (fun _ => none) (fun _ => "h") "a" "t" 7 60 30 ⟨[], [], []⟩ =
        (⟨[], [], []⟩, .err 401 d) := by
  obtain ⟨d, h1, h2⟩ :=
    claim_C3 "s3cr3t" (fun a b => a ++ "|" ++ b) (some "deadbeef") "body"
      (Or.inr ⟨"deadbeef", rfl, Or.inr (Or.inr (by decide))⟩)
  exact ⟨d, h1 true (fun _ => ⟨"success", none, none⟩) (some "j1") 7 [],
    h2 (fun _ => ⟨some "px1", none, none, none, none, none⟩) (fun _ => none)
      (fun _ => "h") "a" "t" 7 60 30 ⟨[], [], []⟩⟩

/-- C6: on an existing job, `GET /fax/{id}/pdf` distinguishes exactly three
failure cases by status code and detail: no token available for the job is
404 "PDF not available"; a presented token different from the expected one
is 403 "Invalid token"; a matching token whose stored expiry is in the past
is 403 "Token expired"; and a matching, unexpired (or expiry-free) token is
served the artifact when the file exists. -/
theorem claim_C6 (dataDir : String) (now : Int) (jobId token : String)
    (jobs : List FaxJob) (files : List String) (job : FaxJob)
    (hfind : findJob jobs jobId = some job) :
    (resolveExpectedToken job = none →
       get_fax_pdf dataDir now jobId token jobs files =
         .err 404 "PDF not available") ∧
    (∀ e, resolveExpectedToken job = some e → token ≠ e →
       get_fax_pdf dataDir now jobId token jobs files =
         .err 403 "Invalid token") ∧
    (∀ e exp, resolveExpectedToken job = some e → token = e →
       job.pdf_token_expires_at = some exp → exp < now →
       get_fax_pdf dataDir now jobId token jobs files =
         .err 403 "Token expired") ∧
    (∀ e, resolveExpectedToken job = some e → token = e →
       (job.pdf_token_expires_at = none ∨
         ∃ exp, job.pdf_token_expires_at = some exp ∧ now ≤ exp) →
       (dataDir ++ "/" ++ jobId ++ ".pdf") ∈ files →
       get_fax_pdf dataDir now jobId token jobs files = .served) := by
  refine ⟨?_, ?_, ?_, ?_⟩
  · intro hres
    simp [get_fax_pdf, hfind, hres]
  · intro e hres hne
    simp [get_fax_pdf, hfind, hres, hne]
  · intro e exp hres htok hexp hlt
    simp [get_fax_pdf, hfind, hres, htok, hexp, hlt]
  · intro e hres htok hexp hfile
    rcases hexp with hnone | ⟨exp, hsome, hle⟩
    · simp [get_fax_pdf, hfind, hres, htok, hnone, hfile]
    · simp [get_fax_pdf, hfind, hres, htok, hsome, hfile, Int.not_lt.mpr hle]

theorem claim_C6_witness :
    get_fax_pdf "./faxdata" 20 "jA" "tok"
      [⟨"jA", "+15551230001", "f.pdf", "", "queued", none, none, "phaxio",
        none, none, none, none, 0, 0⟩] [] = .err 404 "PDF not available" ∧
    get_fax_pdf "./faxdata" 20 "jB" "bad"
      [⟨"jB", "+15551230001", "f.pdf", "", "in_progress", none, none,
        "phaxio", none, none, some "tok", some 100, 0, 0⟩] [] =
      .err 403 "Invalid token" ∧
    get_fax_pdf "./faxdata" 20 "jC" "tok"
      [⟨"jC", "+15551230001", "f.pdf", "", "in_progress", none, none,
        "phaxio", none, none, some "tok", some 10, 0, 0⟩] [] =
      .err 403 "Token expired" ∧
    get_fax_pdf "./faxdata" 20 "jD" "tok"
      [⟨"jD", "+15551230001", "f.pdf", "", "in_progress", none, none,
        "phaxio", none, none, some "tok", some 100, 0, 0⟩]
      ["./faxdata/jD.pdf"] = .served := by
  refine ⟨?_, ?_, ?_, ?_⟩
  · exact (claim_C6 "./faxdata" 20 "jA" "tok"
      [⟨"jA", "+15551230001", "f.pdf", "", "queued", none, none, "phaxio",
        none, none, none, none, 0, 0⟩] []
      ⟨"jA", "+15551230001", "f.pdf", "", "queued", none, none, "phaxio",
        none, none, none, none, 0, 0⟩ (by decide)).1 (by decide)
  · exact (claim_C6 "./faxdata" 20 "jB" "bad"
      [⟨"jB", "+15551230001", "f.pdf", "", "in_progress", none, none,
        "phaxio", none, none, some "tok", some 100, 0, 0⟩] []
      ⟨"jB", "+15551230001", "f.pdf", "", "in_progress", none, none,
        "phaxio", none, none, some "tok", some 100, 0, 0⟩
      (by decide)).2.1 "tok" (by decide) (by decide)
  · exact (claim_C6 "./faxdata" 20 "jC" "tok"
      [⟨"jC", "+15551230001", "f.pdf", "", "in_progress", none, none,
        "phaxio", none, none, some "tok", some 10, 0, 0⟩] []
      ⟨"jC", "+15551230001", "f.pdf", "", "in_progress", none, none,
        "phaxio", none, none, some "tok", some 10, 0, 0⟩
      (by decide)).2.2.1 "tok" 10 (by decide) (by decide) (by decide)
      (by decide)
  · exact (claim_C6 "./faxdata" 20 "jD" "tok"
      [⟨"jD", "+15551230001", "f.pdf", "", "in_progress", none, none,
        "phaxio", none, none, some "tok", some 100, 0, 0⟩]
      ["./faxdata/jD.pdf"]
      ⟨"jD", "+15551230001", "f.pdf", "", "in_progress", none, none,
        "phaxio", none, none, some "tok", some 100, 0, 0⟩
      (by decide)).2.2.2 "tok" (by decide) (by decide)
      (Or.inr ⟨100, by decide, by decide⟩) (by decide)

/-- C10: on a job with no stored `pdf_token` but whose stored `pdf_url`
embeds a `token` query parameter, that query-string value is accepted as the
expected token: presenting it (with an absent or unexpired stored expiry,
and the artifact on disk) serves the artifact instead of returning 404. -/
theorem claim_C10 (dataDir : String) (now : Int) (jobId : String)
    (jobs : List FaxJob) (files : List String) (job : FaxJob)
    (u t : String)
    (hfind : findJob jobs jobId = some job)
    (htok : job.pdf_token = none)
    (hurl : job.pdf_url = some u)
    (hne : u.isEmpty = false)
    (hext : extractUrlToken u = some t)
    (hexp : job.pdf_token_expires_at = none ∨
      ∃ exp, job.pdf_token_expires_at = some exp ∧ now ≤ exp)
    (hfile : (dataDir ++ "/" ++ jobId ++ ".pdf") ∈ files) :
    get_fax_pdf dataDir now jobId t jobs files = .served := by
  have hres : resolveExpectedToken job = some t := by
    simp [resolveExpectedToken, htok, hurl, hne, hext]
  rcases hexp with hnone | ⟨exp, hsome, hle⟩
  · simp [get_fax_pdf, hfind, hres, hnone, hfile]
  · simp [get_fax_pdf, hfind, hres, hsome, hfile, Int.not_lt.mpr hle]

theorem claim_C10_witness :
    get_fax_pdf "./faxdata" 20 "j1" "abc123"
      [⟨"j1", "+15551230001", "f.pdf", "", "in_progress", none, none,
        "phaxio", none,
        some "https://api.example/fax/j1/pdf?token=abc123", none, none,
        0, 0⟩] ["./faxdata/j1.pdf"] = .served :=
  claim_C10 "./faxdata" 20 "j1"
    [⟨"j1", "+15551230001", "f.pdf", "", "in_progress", none, none,
      "phaxio", none,
      some "https://api.example/fax/j1/pdf?token=abc123", none, none,
      0, 0⟩] ["./faxdata/j1.pdf"]
    ⟨"j1", "+15551230001", "f.pdf", "", "in_progress", none, none,
      "phaxio", none,
      some "https://api.example/fax/j1/pdf?token=abc123", none, none,
      0, 0⟩
    "https://api.example/fax/j1/pdf?token=abc123" "abc123" (by decide)
    (by decide) (by decide) (by decide) (by decide) (Or.inl (by decide))
    (by decide)

/-! ### Sweep lemmas for C8 -/

theorem mem_of_mem_cleanupStep {dataDir : String} {cutoff : Int}
    {fails : String → Bool} {fs : List String} {j : FaxJob} {f : String}
    (h : f ∈ cleanupStep dataDir cutoff fails fs j) : f ∈ fs := by
  simp only [cleanupStep] at h
  split at h
  · exact h
  · split at h
    · exact (List.mem_filter.mp h).1
    · exact h

theorem not_mem_foldl_cleanupStep {dataDir : String} {cutoff : Int}
    {fails : String → Bool} (jobs : List FaxJob) (fs : List String)
    (f : String) (h : f ∉ fs) :
    f ∉ jobs.foldl (cleanupStep dataDir cutoff fails) fs := by
  induction jobs generalizing fs with
  | nil => exact h
  | cons j rest ih =>
    simp only [List.foldl_cons]
    exact ih _ (fun hmem => h (mem_of_mem_cleanupStep hmem))

theorem cleanup_removes {dataDir : String} {cutoff : Int}
    {fails : String → Bool} (jobs : List FaxJob) (fs : List String)
    (j : FaxJob) (f : String) (hj : j ∈ jobs) (hfail : fails j.id = false)
    (hclean : shouldClean cutoff j = true)
    (hmatch : cleanupMatch dataDir j f = true) :
    f ∉ jobs.foldl (cleanupStep dataDir cutoff fails) fs := by
  induction jobs generalizing fs with
  | nil => cases hj
  | cons a rest ih =>
    simp only [List.foldl_cons]
    rcases List.mem_cons.mp hj with rfl | hj2
    · apply not_mem_foldl_cleanupStep
      simp only [cleanupStep, hfail, hclean, Bool.false_eq_true, if_false,
        if_true]
      intro hmem
      have hkeep := (List.mem_filter.mp hmem).2
      simp [hmatch] at hkeep
    · exact ih _ hj2

theorem cleanup_keeps {dataDir : String} {cutoff : Int}
    {fails : String → Bool} (jobs : List FaxJob) (fs : List String)
    (f : String) (hf : f ∈ fs)
    (hsafe : ∀ j ∈ jobs, fails j.id = false → shouldClean cutoff j = true →
      cleanupMatch dataDir j f = false) :
    f ∈ jobs.foldl (cleanupStep dataDir cutoff fails) fs := by
  induction jobs generalizing fs with
  | nil => exact hf
  | cons a rest ih =>
    simp only [List.foldl_cons]
    refine ih _ ?_ (fun j hj => hsafe j (List.mem_cons_of_mem a hj))
    simp only [cleanupStep]
    split
    · exact hf
    · split
      · next h1 h2 =>
        refine List.mem_filter.mpr ⟨hf, ?_⟩
        have := hsafe a (List.mem_cons_self a rest) (by
          cases hfa : fails a.id
          · rfl
          · exact absurd hfa h1) h2
        simp [this]
      · exact hf

/-- C8: a sweep pass deletes the artifact files (rendered PDF, TIFF and
original upload) of every terminal job older than the TTL cutoff whose
processing does not raise, never touches any job row (every job stays
retrievable with its prior fields), leaves the files of non-terminal or
newer jobs in place, and a failure on one record does not prevent the other
records from being processed. -/
theorem claim_C8 (dataDir : String) (ttlDays : Nat) (now : Int)
    (fails : String → Bool) (jobs : List FaxJob) (files : List String) :
    (cleanup_once dataDir ttlDays now fails jobs files).1 = jobs ∧
    (∀ id, get_fax (cleanup_once dataDir ttlDays now fails jobs files).1 id =
       get_fax jobs id) ∧
    (∀ j ∈ jobs, fails j.id = false →
       shouldClean (now - (max 1 ttlDays : Nat) * 86400) j = true →
       ∀ f, cleanupMatch dataDir j f = true →
         f ∉ (cleanup_once dataDir ttlDays now fails jobs files).2) ∧
    (∀ f ∈ files,
       (∀ j ∈ jobs, fails j.id = false →
          shouldClean (now - (max 1 ttlDays : Nat) * 86400) j = true →
          cleanupMatch dataDir j f = false) →
       f ∈ (cleanup_once dataDir ttlDays now fails jobs files).2) := by
  refine ⟨rfl, fun id => rfl, ?_, ?_⟩
  · intro j hj hfail hclean f hmatch
    exact cleanup_removes jobs files j f hj hfail hclean hmatch
  · intro f hf hsafe
    exact cleanup_keeps jobs files f hf hsafe

theorem claim_C8_witness :
    ("./fax/jOld.pdf" ∉ (cleanup_once "./fax" 30 2592100 (fun _ => false)
      [⟨"jOld", "+15551230001", "f.pdf", "", "SUCCESS",
        some "prior error", none, "phaxio", none, none, none, none, 40,
        50⟩] ["./fax/jOld.pdf", "./fax/other.pdf"]).2) ∧
    ("./fax/other.pdf" ∈ (cleanup_once "./fax" 30 2592100 (fun _ => false)
      [⟨"jOld", "+15551230001", "f.pdf", "", "SUCCESS",
        some "prior error", none, "phaxio", none, none, none, none, 40,
        50⟩] ["./fax/jOld.pdf", "./fax/other.pdf"]).2) :=
  ⟨(claim_C8 "./fax" 30 2592100 (fun _ => false)
      [⟨"jOld", "+15551230001", "f.pdf", "", "SUCCESS",
        some "prior error", none, "phaxio", none, none, none, none, 40, 50⟩]
      ["./fax/jOld.pdf", "./fax/other.pdf"]).2.2.1
    ⟨"jOld", "+15551230001", "f.pdf", "", "SUCCESS", some "prior error",
      none, "phaxio", none, none, none, none, 40, 50⟩
    (by decide) (by decide) (by decide) "./fax/jOld.pdf" (by decide),
   (claim_C8 "./fax" 30 2592100 (fun _ => false)
      [⟨"jOld", "+15551230001", "f.pdf", "", "SUCCESS",
        some "prior error", none, "phaxio", none, none, none, none, 40, 50⟩]
      ["./fax/jOld.pdf", "./fax/other.pdf"]).2.2.2
    "./fax/other.pdf" (by decide) (by decide)⟩

/-! ### Rate limiter lemmas for C5 -/

theorem rl_call_bucket (rl : Option Int) (g : Int) (key path : String)
    (now : Nat) (N k : Nat) (hres : resolveLimit rl g = (N : Int) + 1) :
    enforce_rate_limit rl g (some key) path now
      [(key ++ "|" ++ path, ⟨now / 60, k⟩)] =
      ([(key ++ "|" ++ path, ⟨now / 60, k + 1⟩)],
       if (N : Int) + 1 < ((k + 1 : Nat) : Int) then
         some (max 1 ((now / 60 + 1) * 60 - now)) else none) := by
  have hpos : ¬ resolveLimit rl g ≤ 0 := by rw [hres]; omega
  simp [enforce_rate_limit, hpos, hres, lookupBucket, setBucket]
  rw [if_neg (by omega : ¬ ((N : Int) + 1 ≤ 0))]
  by_cases hk : N < k
  · simp [hk]
  · simp [hk]

theorem rl_call_empty (rl : Option Int) (g : Int) (key path : String)
    (now : Nat) (N : Nat) (hres : resolveLimit rl g = (N : Int) + 1) :
    enforce_rate_limit rl g (some key) path now [] =
      ([(key ++ "|" ++ path, ⟨now / 60, 1⟩)], none) := by
  have hpos : ¬ resolveLimit rl g ≤ 0 := by rw [hres]; omega
  simp [enforce_rate_limit, hpos, hres, lookupBucket, setBucket]
  rw [if_neg (by omega : ¬ ((N : Int) + 1 ≤ 0)),
    if_neg (by omega : ¬ ((N : Int) < 0))]

theorem rlRun_steady (rl : Option Int) (g : Int) (key path : String)
    (now : Nat) (N : Nat) (hres : resolveLimit rl g = (N : Int) + 1) :
    ∀ (m k : Nat), k + m ≤ N + 1 →
      rlRun rl g (some key) path now m [(key ++ "|" ++ path, ⟨now / 60, k⟩)] =
        ([(key ++ "|" ++ path, ⟨now / 60, k + m⟩)], List.replicate m none) := by
  intro m
  induction m with
  | zero => intro k _; simp [rlRun]
  | succ m ih =>
    intro k hk
    have hcond : ¬ ((N : Int) + 1 < ((k + 1 : Nat) : Int)) := by
      push_cast; omega
    simp only [rlRun]
    rw [rl_call_bucket rl g key path now N k hres]
    simp only [if_neg hcond]
    rw [ih (k + 1) (by omega)]
    have hkm : k + 1 + m = k + (m + 1) := by omega
    rw [hkm, List.replicate_succ]

theorem rlRun_add (rl : Option Int) (g : Int) (info : Option String)
    (path : String) (now : Nat) (a b : Nat) (st : RLState) :
    rlRun rl g info path now (a + b) st =
      ((rlRun rl g info path now b (rlRun rl g info path now a st).1).1,
       (rlRun rl g info path now a st).2 ++
         (rlRun rl g info path now b (rlRun rl g info path now a st).1).2) := by
  induction a generalizing st with
  | zero => simp [rlRun]
  | succ a ih =>
    rw [show a + 1 + b = (a + b) + 1 from by omega]
    simp only [rlRun]
    rw [ih]
    simp

/-- C5: with a resolved positive per-key limit of N+1 requests per minute,
the first N+1 identical requests in one window are admitted and exactly the
(N+2)-th is rejected, carrying a retry-after hint of `max 1` of the seconds
remaining in the fixed window (which is exactly `60 - now % 60`); a resolved
limit of zero or less disables limiting entirely, and unauthenticated
requests (no key) are never rate limited. -/
theorem claim_C5 :
    (∀ (rl : Option Int) (g : Int) (key path : String) (now N : Nat),
       resolveLimit rl g = (N : Int) + 1 →
       rlRun rl g (some key) path now (N + 2) [] =
         ([(key ++ "|" ++ path, ⟨now / 60, N + 2⟩)],
          List.replicate (N + 1) none ++
            [some (max 1 ((now / 60 + 1) * 60 - now))])) ∧
    (∀ (rl : Option Int) (g : Int) (info : Option String) (path : String)
       (now : Nat) (st : RLState), resolveLimit rl g ≤ 0 →
       enforce_rate_limit rl g info path now st = (st, none)) ∧
    (∀ (rl : Option Int) (g : Int) (path : String) (now : Nat)
       (st : RLState),
       enforce_rate_limit rl g none path now st = (st, none)) ∧
    (∀ now : Nat, max 1 ((now / 60 + 1) * 60 - now) = 60 - now % 60) := by
  refine ⟨?_, ?_, ?_, ?_⟩
  · intro rl g key path now N hres
    rw [show N + 2 = 1 + (N + 1) from by omega,
      rlRun_add rl g (some key) path now 1 (N + 1) []]
    have e0 : rlRun rl g (some key) path now 1 [] =
        ([(key ++ "|" ++ path, ⟨now / 60, 1⟩)], [none]) := by
      simp only [rlRun]
      rw [rl_call_empty rl g key path now N hres]
    rw [e0]
    rw [show N + 1 = N + 1 from rfl,
      rlRun_add rl g (some key) path now N 1
        [(key ++ "|" ++ path, ⟨now / 60, 1⟩)]]
    rw [rlRun_steady rl g key path now N hres N 1 (by omega)]
    have elast : rlRun rl g (some key) path now 1
        [(key ++ "|" ++ path, ⟨now / 60, 1 + N⟩)] =
        ([(key ++ "|" ++ path, ⟨now / 60, 1 + N + 1⟩)],
         [some (max 1 ((now / 60 + 1) * 60 - now))]) := by
      simp only [rlRun]
      rw [rl_call_bucket rl g key path now N (1 + N) hres]
      rw [if_pos (by push_cast; omega)]
    rw [elast]
    dsimp only
    rw [show 1 + N + 1 = N + 2 from by omega]
    simp [List.replicate_succ]
    omega
  · intro rl g info path now st h
    simp [enforce_rate_limit, h]
  · intro rl g path now st
    by_cases h : resolveLimit rl g ≤ 0 <;> simp [enforce_rate_limit, h]
  · intro now
    omega

theorem claim_C5_witness :
    rlRun none 2 (some "k") "/fax" 130 (1 + 2) [] =
      ([("k" ++ "|" ++ "/fax", ⟨130 / 60, 1 + 2⟩)],
       List.replicate (1 + 1) none ++
         [some (max 1 ((130 / 60 + 1) * 60 - 130))]) :=
  claim_C5.1 none 2 "k" "/fax" 130 1 (by decide)

/-! ### Webhook replay lemmas for C2 -/

theorem phaxio_sig_gate_err {v : Bool} {s : String} {hd : Option String}
    {mac : String → String → String} {raw : String} {e : WebhookResp}
    (h : phaxio_sig_gate v s hd mac raw = some e) : ∃ d, e = WebhookResp.err 401 d := by
  cases v with
  | false => simp [phaxio_sig_gate] at h
  | true =>
    cases hd with
    | none =>
      simp only [phaxio_sig_gate, if_true] at h
      exact ⟨_, (Option.some_injective _ h).symm⟩
    | some hh =>
      simp only [phaxio_sig_gate, if_true] at h
      split_ifs at h <;>
        exact ⟨_, (Option.some_injective _ h).symm⟩

/-- C2 (amended): the inbound webhook endpoint is idempotent per
(provider_sid, event_type): once a delivery carrying a provider id has been
acknowledged with "ok", processing the identical payload again — at any
later time and with any fresh ids — changes nothing (no new receipt row, no
new inbound fax row, no new stored file) and still acknowledges "ok".  (The
outbound status callback has no such dedup; see the counterexample.) -/
theorem claim_C2_amended (enabled verify : Bool) (secret : String)
    (mac : String → String → String) (header : Option String) (raw : String)
    (parse : String → InboundPayload) (fetch : String → Option (List Nat))
    (sha : List Nat → String) (id1 tok1 : String) (t1 : Int)
    (id2 tok2 : String) (t2 : Int) (ttl ret : Nat)
    (st0 st1 : InboundState) (sid : String)
    (hsid : (parse raw).provider_sid = some sid)
    (h1 : phaxio_inbound enabled verify secret mac header raw parse fetch sha
      id1 tok1 t1 ttl ret st0 = (st1, .ok "ok")) :
    phaxio_inbound enabled verify secret mac header raw parse fetch sha id2
      tok2 t2 ttl ret st1 = (st1, .ok "ok") := by
  cases enabled with
  | false => simp [phaxio_inbound] at h1
  | true =>
    cases hg : phaxio_sig_gate verify secret header mac raw with
    | some e =>
      obtain ⟨d, rfl⟩ := phaxio_sig_gate_err hg
      simp [phaxio_inbound, hg] at h1
    | none =>
      simp only [phaxio_inbound, not_true, if_false, hg, hsid] at h1 ⊢
      cases hins : insertInboundEvent st0.events sid "phaxio-inbound" with
      | none =>
        rw [hins] at h1
        have hst : st0 = st1 := congrArg Prod.fst h1
        subst hst
        have hmem : (sid, "phaxio-inbound") ∈ st0.events := by
          by_contra hno
          simp [insertInboundEvent, hno] at hins
        rw [show insertInboundEvent st0.events sid "phaxio-inbound" = none
          from by simp [insertInboundEvent, hmem]]
      | some evs =>
        rw [hins] at h1
        have hev : st1.events = evs := by
          have := congrArg (fun p => p.1.events) h1
          simpa using this.symm
        have hmem : (sid, "phaxio-inbound") ∈ evs := by
          have : evs = st0.events ++ [(sid, "phaxio-inbound")] := by
            by_cases hin : (sid, "phaxio-inbound") ∈ st0.events
            · simp [insertInboundEvent, hin] at hins
            · simpa [insertInboundEvent, hin] using hins.symm
          simp [this]
        rw [show insertInboundEvent st1.events sid "phaxio-inbound" = none
          from by simp [insertInboundEvent, hev, hmem]]

theorem claim_C2_amended_witness :
    phaxio_inbound true false "" (fun _ _ => "") none "raw"
      (fun _ => ⟨some "px1", none, none, none, none, none⟩) (fun _ => none)
      (fun _ => "h") "b" "t2" 20 60 30
      ⟨[("px1", "phaxio-inbound")], [], []⟩ =
      (⟨[("px1", "phaxio-inbound")], [], []⟩, .ok "ok") :=
  claim_C2_amended true false "" (fun _ _ => "") none "raw"
    (fun _ => ⟨some "px1", none, none, none, none, none⟩) (fun _ => none)
    (fun _ => "h") "a" "t1" 10 "b" "t2" 20 60 30
    ⟨[("px1", "phaxio-inbound")], [], []⟩
    ⟨[("px1", "phaxio-inbound")], [], []⟩ "px1" rfl (by decide)

/-- C2 counterexample: the outbound status callback performs no webhook
dedup at all — processing the identical Phaxio payload a second time (at a
later wall-clock instant, as a replay arrives) commits a second mutation of
the job row (`updated_at` moves again), and the endpoint still answers
"ok"; so webhook processing is not idempotent per (provider_sid,
event_type) across all webhook handlers. -/
theorem claim_C2_cex :
    ((phaxio_callback false "sec" true (fun _ _ => "") none "raw"
        (fun _ => ⟨"success", some 2, none⟩) (some "job1") 200
        (phaxio_callback false "sec" true (fun _ _ => "") none "raw"
          (fun _ => ⟨"success", some 2, none⟩) (some "job1") 100
          [⟨"job1", "+15551230001", "f.pdf", "", "in_progress", none, none,
            "phaxio", none, none, none, none, 0, 0⟩]).1).1 ≠
      (phaxio_callback false "sec" true (fun _ _ => "") none "raw"
        (fun _ => ⟨"success", some 2, none⟩) (some "job1") 100
        [⟨"job1", "+15551230001", "f.pdf", "", "in_progress", none, none,
          "phaxio", none, none, none, none, 0, 0⟩]).1) ∧
    ((phaxio_callback false "sec" true (fun _ _ => "") none "raw"
        (fun _ => ⟨"success", some 2, none⟩) (some "job1") 200
        (phaxio_callback false "sec" true (fun _ _ => "") none "raw"
          (fun _ => ⟨"success", some 2, none⟩) (some "job1") 100
          [⟨"job1", "+15551230001", "f.pdf", "", "in_progress", none, none,
            "phaxio", none, none, none, none, 0, 0⟩]).1).2 = .ok "ok") := by
  exact ⟨by decide, by decide⟩

end Faxbot
